import Mathlib

/-!
# Verification of the IrrigoDash telemetry processor (`src/app.py`)

Shallow embedding of `process_data` from `src/app.py`:

* timestamps are modelled as seconds since the epoch (`Nat`);
* numeric sensor cells are `Option ℚ` (`none` models the NaN produced by
  `pd.to_numeric(..., errors='coerce')`);
* the pandas dataframe is a list of rows plus the list of sensor columns
  present in the CSV;
* `read_csv` / `to_datetime` failures (the `try` block's exceptions) are
  modelled by an `Except LoadError Df` input to `process_data`.

The pipeline steps are translated line by line from `src/app.py`,
lines 24-107.
-/

/-- The four known sensor ids of the `SENSORS` catalog (app.py lines 10-15). -/
inductive Sensor
  | pressure
  | temperature
  | humidity
  | env_pressure
deriving DecidableEq, Repr

/-- Iteration order of `SENSORS.keys()` (Python dicts preserve insertion order). -/
def SENSORS : List Sensor := [.pressure, .temperature, .humidity, .env_pressure]

/-- Maximum number of chart points per sensor (app.py line 21). -/
def MAX_POINTS : Nat := 300

/-- One CSV row after normalization: parsed timestamp (seconds since epoch)
and one `Option ℚ` cell per known sensor (`none` = NaN). -/
structure Row where
  ts : Nat
  pressure : Option ℚ
  temperature : Option ℚ
  humidity : Option ℚ
  env_pressure : Option ℚ
deriving DecidableEq, Repr

/-- The cell of row `r` in the column of sensor `s`. -/
def Row.val (r : Row) : Sensor → Option ℚ
  | .pressure => r.pressure
  | .temperature => r.temperature
  | .humidity => r.humidity
  | .env_pressure => r.env_pressure

/-- The loaded dataframe: the sensor columns present in the CSV header and
the normalized rows, in file order. -/
structure Df where
  cols : List Sensor
  rows : List Row
deriving DecidableEq, Repr

/-- Per-sensor statistics dict; `current = none` models the absence of the
`'current'` key (app.py lines 68, 83-88, 90). -/
structure Stats where
  min : ℚ
  max : ℚ
  mean : ℚ
  current : Option ℚ
deriving DecidableEq, Repr

/-- `{'min': 0, 'max': 0, 'mean': 0}` (app.py lines 68 and 90). -/
def zeroStats : Stats := ⟨0, 0, 0, none⟩

/-- One chart series (app.py lines 77-80); timestamps in seconds since epoch. -/
structure Series where
  timestamps : List Nat
  values : List ℚ
deriving DecidableEq, Repr

/-- The result bundle of `process_data` (app.py lines 94-99 and 102-107).
`last_update = none` models both the Python value `None` and the key being
absent; same for `error`. -/
structure Bundle where
  stats : List (Sensor × Stats)
  chart_data : List (Sensor × Series)
  data_available : Bool
  last_update : Option Nat
  error : Option String
deriving DecidableEq, Repr

/-- Dictionary lookup in an association list keyed by sensors. -/
def getEntry {β : Type} : List (Sensor × β) → Sensor → Option β
  | [], _ => none
  | p :: ps, s => if p.1 = s then some p.2 else getEntry ps s

/-! ## Sorting (app.py line 38: `df.sort_values('timestamp')`)

`sort_values` is called without a `kind` argument, so it uses the default
quicksort (numpy's introsort), which pandas documents as **not** stable:
the relative order of rows with equal timestamps after line 38 is not
guaranteed to be their file order.  The model below is a stable insertion
sort — one particular correct sort.  This choice is sound for reasoning
about the bundle because the only property `sort_values` does guarantee is
"a sorted permutation of the rows", and `C2_tie_order_unobservable` below
proves that every sorted permutation of the same rows yields the same
per-sensor outputs and the same timestamp column (every sample of a minute
bucket is averaged by `resample('min').mean()`, which in exact arithmetic
is invariant under reordering).  The stability itself that the spec asserts
is *not* a property of the code; it is reported as a code bug. -/

/-- Insert a row into a list, after every row with a strictly smaller
timestamp and before the rest. -/
def insertRow (r : Row) : List Row → List Row
  | [] => [r]
  | x :: xs => if x.ts < r.ts then x :: insertRow r xs else r :: x :: xs

/-- Stable sort of the rows by ascending timestamp. -/
def sortRows : List Row → List Row
  | [] => []
  | r :: rs => insertRow r (sortRows rs)

/-- Same stable insertion for timestamped pairs (used for
`set_index('timestamp').sort_index()`, app.py line 56). -/
def insertPair {β : Type} (p : Nat × β) : List (Nat × β) → List (Nat × β)
  | [] => [p]
  | q :: qs => if q.1 < p.1 then q :: insertPair p qs else p :: q :: qs

/-- Stable sort of timestamped pairs by ascending timestamp. -/
def sortPairs {β : Type} : List (Nat × β) → List (Nat × β)
  | [] => []
  | p :: ps => insertPair p (sortPairs ps)

/-! ## Date filtering (app.py lines 41-44) -/

/-- `if start_date and end_date:` — when both bounds are present keep the
rows with `start_date <= timestamp <= end_date + 1 day - 1 second`,
otherwise return the rows unchanged.  `sd`/`ed` are the parsed datetimes
(`pd.to_datetime`), so a calendar date is its midnight timestamp. -/
def dateFilter (rows : List Row) : Option Nat → Option Nat → List Row
  | some sd, some ed => rows.filter (fun r => sd ≤ r.ts && r.ts ≤ ed + 86400 - 1)
  | _, _ => rows

/-! ## Per-sensor resampling and interpolation (app.py lines 52-64) -/

/-- The valid samples of sensor `s`: `df.dropna(subset=[sensor])` projected
to (timestamp, value) pairs, in row order (app.py line 52). -/
def validPairs (rows : List Row) (s : Sensor) : List (Nat × ℚ) :=
  rows.filterMap (fun r => (r.val s).map (fun v => (r.ts, v)))

/-- Fill a maximal run of missing buckets (`pendRev`, minute ids in reverse
order) lying strictly between a valid bucket with value `vj` and one with
value `vk`: the `t`-th missing bucket of a run of length `g` gets the linear
interpolation by index position, `vj + (vk - vj) * (t / (g + 1))`. -/
def fillGap (vj vk : ℚ) (pendRev : List Nat) : List (Nat × Option ℚ) :=
  let pend := pendRev.reverse
  let g := pend.length
  pend.enum.map (fun q =>
    (q.2, some (vj + (vk - vj) * (((q.1 : ℚ) + 1) / ((g : ℚ) + 1)))))

/-- Interpolation pass after a valid bucket with value `vj` was seen;
`pendRev` accumulates the missing buckets since then (in reverse).  Missing
buckets with a later valid bucket get the linear interpolation; missing
buckets after the last valid one get `vj` (pandas' default forward limit
direction). -/
def interpAfter (vj : ℚ) (pendRev : List Nat) :
    List (Nat × Option ℚ) → List (Nat × Option ℚ)
  | [] => pendRev.reverse.map (fun m => (m, some vj))
  | (m, none) :: rest => interpAfter vj (m :: pendRev) rest
  | (m, some vk) :: rest =>
      fillGap vj vk pendRev ++ ((m, some vk) :: interpAfter vk [] rest)

/-- `interpolate(method='linear')` over the minute grid (app.py line 60):
a missing bucket between two valid buckets gets the linear interpolation by
index position; a missing bucket after the last valid one gets the last
valid value (pandas' default forward limit direction); missing buckets
before the first valid one stay missing. -/
def interpGrid : List (Nat × Option ℚ) → List (Nat × Option ℚ)
  | [] => []
  | (m, none) :: rest => (m, none) :: interpGrid rest
  | (m, some v) :: rest => (m, some v) :: interpAfter v [] rest

/-- The full filtered/resampled series of sensor `s` (app.py lines 52-64):
drop rows where `s` is NaN, index and sort by timestamp, resample to
1-minute buckets by the bucket mean, linearly interpolate missing buckets,
and drop buckets that are still missing.  Result: (minute index, value)
pairs; the bucket's timestamp is `60 * minute index`. -/
def resampledSeries (rows : List Row) (s : Sensor) : List (Nat × ℚ) :=
  match sortPairs (validPairs rows s) with
  | [] => []
  | p :: ps =>
    let b0 := p.1 / 60
    let b1 := ((p :: ps).getLastD p).1 / 60
    let grid : List (Nat × Option ℚ) :=
      (List.range (b1 - b0 + 1)).map (fun i =>
        let m := b0 + i
        let vs := ((p :: ps).filter (fun q => q.1 / 60 == m)).map Prod.snd
        (m, if vs.length = 0 then none else some (vs.sum / (vs.length : ℚ))))
    (interpGrid grid).filterMap (fun q => q.2.map (fun v => (q.1, v)))

/-! ## Downsampling for display (app.py lines 72-74) -/

/-- `np.linspace(0, n - 1, MAX_POINTS).astype(int)`: the 300 evenly spaced
index positions `⌊k * (n - 1) / 299⌋` for `k = 0, …, 299`. -/
def downsampleIndices (n : Nat) : List Nat :=
  (List.range MAX_POINTS).map (fun k => k * (n - 1) / (MAX_POINTS - 1))

/-- `if len(sensor_df) > MAX_POINTS: sensor_df = sensor_df.iloc[indices]`. -/
def downsample {α : Type} (l : List α) : List α :=
  if l.length > MAX_POINTS then (downsampleIndices l.length).filterMap l.get? else l

/-! ## Per-sensor output (app.py lines 50-90) -/

/-- `Series.min()` over the (NaN-free) values. -/
def valsMin (l : List ℚ) : ℚ := l.foldl min (l.headD 0)

/-- `Series.max()` over the (NaN-free) values. -/
def valsMax (l : List ℚ) : ℚ := l.foldl max (l.headD 0)

/-- `Series.mean()` over the (NaN-free) values. -/
def valsMean (l : List ℚ) : ℚ := l.sum / (l.length : ℚ)

/-- The per-iteration body of the sensor loop: the statistics dict entry and
the optional chart series for one sensor, given the date-filtered sorted
rows.  Mirrors app.py lines 52-90. -/
def sensorOut (rows : List Row) (s : Sensor) : Stats × Option Series :=
  if (validPairs rows s).isEmpty then
    (zeroStats, none)
  else
    let rs := resampledSeries rows s
    if rs.isEmpty then
      (zeroStats, none)
    else
      let ds := downsample rs
      let vals := ds.map Prod.snd
      (⟨valsMin vals, valsMax vals, valsMean vals, vals.getLast?⟩,
       some ⟨ds.map (fun p => 60 * p.1), vals⟩)

/-! ## The whole processor (app.py lines 24-107) -/

/-- The `try` block of `process_data` after loading succeeded
(app.py lines 38-99). -/
def successBundle (df : Df) (sd ed : Option Nat) : Bundle :=
  let rows := dateFilter (sortRows df.rows) sd ed
  let keys := SENSORS.filter (fun s => decide (s ∈ df.cols))
  { stats := keys.map (fun s => (s, (sensorOut rows s).1)),
    chart_data := keys.filterMap (fun s => ((sensorOut rows s).2).map (fun c => (s, c))),
    data_available := true,
    last_update := (rows.map Row.ts).max?,
    error := none }

/-- The distinguishable failure modes of the loading/normalization steps
(app.py lines 27-30): `pd.read_csv` and `pd.to_datetime` exceptions. -/
inductive LoadError
  | fileMissing
  | unreadable
  | malformedCsv
  | badSchema
deriving DecidableEq, Repr

/-- `str(e)` for each load failure (modelled after the messages of the
pandas/Python exceptions raised at app.py lines 27-30). -/
def LoadError.msg : LoadError → String
  | .fileMissing => "[Errno 2] No such file or directory"
  | .unreadable => "[Errno 13] Permission denied"
  | .malformedCsv => "Error tokenizing data"
  | .badSchema => "timestamp"

/-- `process_data(start_date, end_date)` (app.py lines 24-107): on a load
failure the `except` branch returns the empty error bundle, otherwise the
success pipeline runs. -/
def process_data (load : Except LoadError Df) (sd ed : Option Nat) : Bundle :=
  match load with
  | .ok df => successBundle df sd ed
  | .error e =>
      { stats := [],
        chart_data := [],
        data_available := false,
        last_update := none,
        error := some e.msg }

/-! ## Concrete inputs used by witnesses and counterexamples -/

/-- Two pressure samples two minutes apart (the spec's resampling example). -/
def exTwoRows : List Row :=
  [⟨0, some 1, none, none, none⟩, ⟨120, some 3, none, none, none⟩]

/-- A single pressure sample at `t = 90 s`. -/
def exOneRow : List Row := [⟨90, some 5, none, none, none⟩]

/-- Four pressure samples whose resampled series has 301 minute buckets:
value 1 at minutes 0, 298 and 300, value 100 at minute 299.  Buckets
1-297 are linearly interpolated between two 1s, so every bucket except
bucket 299 has value 1. -/
def exPeakRows : List Row :=
  [⟨0, some 1, none, none, none⟩, ⟨17880, some 1, none, none, none⟩,
   ⟨17940, some 100, none, none, none⟩, ⟨18000, some 1, none, none, none⟩]

/-- The value of bucket `i` of the resampled series of `exPeakRows`. -/
def exPeakVal (i : Nat) : ℚ := if i = 299 then 100 else 1

/-- The full resampled series of `exPeakRows` as an explicit list. -/
def exPeakFull : List (Nat × ℚ) := (List.range 301).map (fun i => (i, exPeakVal i))

/-- The downsampled display series of `exPeakRows`: the 300 evenly spaced
positions `⌊k * 300 / 299⌋`, which skip position 299 — exactly the bucket
holding the maximum value 100.  All selected buckets have value 1. -/
def exPeakDs : List (Nat × ℚ) :=
  (List.range 300).map (fun k => (k * 300 / 299, exPeakVal (k * 300 / 299)))

/-- The projection of a row to the data sensor `s` depends on: its
timestamp and its own column.  Used to state that per-sensor processing is
independent of the other sensors' columns. -/
def projTs (s : Sensor) (r : Row) : Nat × Option ℚ := (r.ts, r.val s)

/-! ## Helper lemmas: the stable sort -/

theorem insertRow_perm (r : Row) (l : List Row) : (insertRow r l).Perm (r :: l) := by
  induction l with
  | nil => simp [insertRow]
  | cons x xs ih =>
      simp only [insertRow]
      split
      · exact (ih.cons x).trans (List.Perm.swap r x xs)
      · exact List.Perm.refl _

theorem sortRows_perm (l : List Row) : (sortRows l).Perm l := by
  induction l with
  | nil => simp [sortRows]
  | cons r rs ih => exact (insertRow_perm r (sortRows rs)).trans (ih.cons r)

theorem insertRow_sorted (r : Row) (l : List Row)
    (h : l.Pairwise (fun a b => a.ts ≤ b.ts)) :
    (insertRow r l).Pairwise (fun a b => a.ts ≤ b.ts) := by
  induction l with
  | nil => simp [insertRow]
  | cons x xs ih =>
      obtain ⟨hx, hxs⟩ := List.pairwise_cons.mp h
      simp only [insertRow]
      split
      next hlt =>
        refine List.Pairwise.cons ?_ (ih hxs)
        intro b hb
        have hmem : b = r ∨ b ∈ xs := by
          simpa using (insertRow_perm r xs).mem_iff.mp hb
        rcases hmem with rfl | hmem
        · exact Nat.le_of_lt hlt
        · exact hx b hmem
      next hge =>
        refine List.Pairwise.cons ?_ (List.Pairwise.cons hx hxs)
        intro b hb
        have hmem : b = x ∨ b ∈ xs := by simpa using hb
        rcases hmem with rfl | hmem
        · exact Nat.le_of_not_lt hge
        · exact Nat.le_trans (Nat.le_of_not_lt hge) (hx b hmem)

theorem sortRows_sorted (l : List Row) :
    (sortRows l).Pairwise (fun a b => a.ts ≤ b.ts) := by
  induction l with
  | nil => simp [sortRows]
  | cons r rs ih => exact insertRow_sorted r (sortRows rs) ih

/-- C3.  For every failure during loading or normalization, `process_data`
returns (it never raises: it is a total function into `Bundle`) the error
bundle with `data_available = false`, empty `stats`, empty `chart_data` and
a non-empty error message. -/
theorem C3_error_bundle (e : LoadError) (sd ed : Option Nat) :
    process_data (.error e) sd ed =
        { stats := [], chart_data := [], data_available := false,
          last_update := none, error := some e.msg } ∧
      e.msg ≠ "" := by
  refine ⟨rfl, ?_⟩
  cases e <;> simp [LoadError.msg]

/-- C4.  With both bounds present, exactly the rows with timestamp in the
inclusive interval `[start_date, end_date + 86399]` are retained (so a row
stamped exactly at `end_date 23:59:59` is kept and one stamped at
`end_date + 1 day 00:00:00` is not); with either bound absent the rows are
returned unfiltered. -/
theorem C4_date_window (rows : List Row) (sd ed : Nat) :
    (∀ r : Row, r ∈ dateFilter rows (some sd) (some ed) ↔
        (r ∈ rows ∧ sd ≤ r.ts ∧ r.ts ≤ ed + 86400 - 1)) ∧
      (∀ ed? : Option Nat, dateFilter rows none ed? = rows) ∧
      (∀ sd? : Option Nat, dateFilter rows sd? none = rows) := by
  refine ⟨fun r => ?_, fun e => rfl, fun s => ?_⟩
  · simp [dateFilter, List.mem_filter, and_assoc]
  · cases s <;> rfl

/-! ## Helper lemmas: bundle lookups -/

theorem mem_SENSORS (s : Sensor) : s ∈ SENSORS := by
  cases s <;> simp [SENSORS]

theorem getEntry_keys_map {β : Type} (ks : List Sensor) (f : Sensor → β) (s : Sensor) :
    getEntry (ks.map (fun k => (k, f k))) s = if s ∈ ks then some (f s) else none := by
  induction ks with
  | nil => simp [getEntry]
  | cons k ks ih =>
      by_cases hk : k = s
      · subst hk
        simp [getEntry]
      · have hsk : ¬ s = k := fun h => hk h.symm
        simp [getEntry, hk, ih, List.mem_cons, hsk]

theorem getEntry_keys_filterMap (ks : List Sensor) (g : Sensor → Option Series) (s : Sensor) :
    getEntry (ks.filterMap (fun k => (g k).map (fun c => (k, c)))) s =
      if s ∈ ks then g s else none := by
  induction ks with
  | nil => simp [getEntry]
  | cons k ks ih =>
      by_cases hk : k = s
      · subst hk
        cases hg : g k with
        | none => simp [List.filterMap_cons, hg, ih]
        | some c => simp [List.filterMap_cons, hg, getEntry]
      · have hsk : ¬ s = k := fun h => hk h.symm
        cases hg : g k with
        | none => simp [List.filterMap_cons, hg, ih, List.mem_cons, hsk]
        | some c => simp [List.filterMap_cons, hg, getEntry, hk, ih, List.mem_cons, hsk]

theorem stats_lookup (df : Df) (sd ed : Option Nat) (s : Sensor) :
    getEntry (successBundle df sd ed).stats s =
      if s ∈ df.cols then some ((sensorOut (dateFilter (sortRows df.rows) sd ed) s).1)
      else none := by
  have h := getEntry_keys_map (SENSORS.filter (fun k => decide (k ∈ df.cols)))
    (fun k => (sensorOut (dateFilter (sortRows df.rows) sd ed) k).1) s
  simp only [successBundle] at *
  rw [h]
  simp [List.mem_filter, mem_SENSORS s]

theorem chart_lookup (df : Df) (sd ed : Option Nat) (s : Sensor) :
    getEntry (successBundle df sd ed).chart_data s =
      if s ∈ df.cols then (sensorOut (dateFilter (sortRows df.rows) sd ed) s).2
      else none := by
  have h := getEntry_keys_filterMap (SENSORS.filter (fun k => decide (k ∈ df.cols)))
    (fun k => (sensorOut (dateFilter (sortRows df.rows) sd ed) k).2) s
  simp only [successBundle] at *
  rw [h]
  simp [List.mem_filter, mem_SENSORS s]

/-! ## Helper lemmas: per-sensor branches -/

theorem sensorOut_of_no_valid (rows : List Row) (s : Sensor)
    (h : validPairs rows s = []) : sensorOut rows s = (zeroStats, none) := by
  simp [sensorOut, h]

theorem resampledSeries_of_no_valid (rows : List Row) (s : Sensor)
    (h : validPairs rows s = []) : resampledSeries rows s = [] := by
  simp [resampledSeries, h, sortPairs]

theorem sensorOut_of_rs_empty (rows : List Row) (s : Sensor)
    (h : resampledSeries rows s = []) : sensorOut rows s = (zeroStats, none) := by
  by_cases hp : validPairs rows s = []
  · exact sensorOut_of_no_valid rows s hp
  · simp [sensorOut, hp, h, List.isEmpty_iff]

theorem sensorOut_of_rs_ne (rows : List Row) (s : Sensor)
    (h : resampledSeries rows s ≠ []) :
    sensorOut rows s =
      (⟨valsMin ((downsample (resampledSeries rows s)).map Prod.snd),
        valsMax ((downsample (resampledSeries rows s)).map Prod.snd),
        valsMean ((downsample (resampledSeries rows s)).map Prod.snd),
        ((downsample (resampledSeries rows s)).map Prod.snd).getLast?⟩,
       some ⟨(downsample (resampledSeries rows s)).map (fun p => 60 * p.1),
             (downsample (resampledSeries rows s)).map Prod.snd⟩) := by
  have hp : validPairs rows s ≠ [] := by
    intro hp
    exact h (resampledSeries_of_no_valid rows s hp)
  simp [sensorOut, hp, h, List.isEmpty_iff]

/-! ## Helper lemmas: downsampling -/

theorem downsampleIndices_length (n : Nat) :
    (downsampleIndices n).length = MAX_POINTS := by
  simp [downsampleIndices]

theorem downsampleIndices_lt (n : Nat) (hn : 0 < n) :
    ∀ i ∈ downsampleIndices n, i < n := by
  intro i hi
  simp only [downsampleIndices, List.mem_map, List.mem_range] at hi
  obtain ⟨k, hk, rfl⟩ := hi
  have h1 : k * (n - 1) ≤ (MAX_POINTS - 1) * (n - 1) :=
    Nat.mul_le_mul_right _ (by omega)
  have h2 : k * (n - 1) / (MAX_POINTS - 1) ≤ (MAX_POINTS - 1) * (n - 1) / (MAX_POINTS - 1) :=
    Nat.div_le_div_right h1
  have h3 : (MAX_POINTS - 1) * (n - 1) / (MAX_POINTS - 1) = n - 1 :=
    Nat.mul_div_cancel_left _ (by simp [MAX_POINTS])
  omega

theorem length_filterMap_getElem? {α : Type} (l : List α) (idxs : List Nat)
    (h : ∀ i ∈ idxs, i < l.length) :
    (idxs.filterMap l.get?).length = idxs.length := by
  induction idxs with
  | nil => rfl
  | cons i is ih =>
      have hi : i < l.length := h i (by simp)
      have hg : l[i]? = some l[i] := List.getElem?_eq_getElem hi
      simp [List.filterMap_cons, List.get?_eq_getElem?, hg,
        ih (fun j hj => h j (by simp [hj]))]

theorem downsample_length_of_gt {α : Type} (l : List α) (h : MAX_POINTS < l.length) :
    (downsample l).length = MAX_POINTS := by
  rw [downsample, if_pos h, length_filterMap_getElem? l _
    (downsampleIndices_lt l.length (by omega)), downsampleIndices_length]

theorem downsample_ne_nil {α : Type} (l : List α) (h : l ≠ []) :
    downsample l ≠ [] := by
  by_cases hl : MAX_POINTS < l.length
  · have := downsample_length_of_gt l hl
    intro hnil
    rw [hnil] at this
    simp [MAX_POINTS] at this
  · rw [downsample, if_neg hl]
    exact h

theorem downsampleIndices_strictMono (n : Nat) (hn : MAX_POINTS < n)
    {i j : Nat} (hij : i < j) :
    i * (n - 1) / (MAX_POINTS - 1) < j * (n - 1) / (MAX_POINTS - 1) := by
  simp only [MAX_POINTS] at hn ⊢
  have hone : 1 ≤ (n - 1) / 299 := by
    rw [Nat.one_le_div_iff (by omega)]
    omega
  have hnum : i * (n - 1) + (n - 1) = (i + 1) * (n - 1) := by ring
  have hstep : i * (n - 1) / 299 + 1 ≤ (i + 1) * (n - 1) / 299 := by
    calc i * (n - 1) / 299 + 1
        ≤ i * (n - 1) / 299 + (n - 1) / 299 := by omega
      _ ≤ (i * (n - 1) + (n - 1)) / 299 := Nat.add_div_le_add_div _ _ _
      _ = (i + 1) * (n - 1) / 299 := by rw [hnum]
  have hmono : (i + 1) * (n - 1) / 299 ≤ j * (n - 1) / 299 :=
    Nat.div_le_div_right (Nat.mul_le_mul_right _ (by omega))
  omega

theorem downsampleIndices_pairwise (n : Nat) (hn : MAX_POINTS < n) :
    (downsampleIndices n).Pairwise (· < ·) := by
  rw [downsampleIndices, List.pairwise_map]
  exact (List.pairwise_lt_range _).imp (fun h => downsampleIndices_strictMono n hn h)

theorem zero_mem_downsampleIndices (n : Nat) : 0 ∈ downsampleIndices n := by
  rw [downsampleIndices, List.mem_map]
  exact ⟨0, by simp [MAX_POINTS], by simp⟩

theorem last_mem_downsampleIndices (n : Nat) : n - 1 ∈ downsampleIndices n := by
  rw [downsampleIndices, List.mem_map]
  refine ⟨MAX_POINTS - 1, by simp [MAX_POINTS], ?_⟩
  exact Nat.mul_div_cancel_left _ (by simp [MAX_POINTS])

/-- C5.  Downsampling never applies at or under the cap of `MAX_POINTS = 300`
samples; above the cap it selects exactly the 300 evenly spaced index
positions `⌊k (n-1) / 299⌋`, which are strictly increasing (so exactly 300
distinct samples are kept) and always include the first and the last sample
of the ordered series. -/
theorem C5_downsample (α : Type) (l : List α) :
    (l.length ≤ MAX_POINTS → downsample l = l) ∧
      (MAX_POINTS < l.length →
        downsample l = (downsampleIndices l.length).filterMap l.get? ∧
          (downsample l).length = MAX_POINTS ∧
          (downsampleIndices l.length).Pairwise (· < ·) ∧
          (∀ a, l.head? = some a → a ∈ downsample l) ∧
          (∀ a, l.getLast? = some a → a ∈ downsample l)) := by
  constructor
  · intro h
    rw [downsample, if_neg (by omega)]
  · intro h
    refine ⟨by rw [downsample, if_pos h], downsample_length_of_gt l h,
      downsampleIndices_pairwise _ h, ?_, ?_⟩
    · intro a ha
      rw [downsample, if_pos h]
      refine List.mem_filterMap.mpr ⟨0, zero_mem_downsampleIndices _, ?_⟩
      rwa [List.get?_eq_getElem?, ← List.head?_eq_getElem?]
    · intro a ha
      rw [downsample, if_pos h]
      refine List.mem_filterMap.mpr ⟨l.length - 1, last_mem_downsampleIndices _, ?_⟩
      rwa [List.get?_eq_getElem?, ← List.getLast?_eq_getElem?]

set_option maxRecDepth 4000 in
/-- Witness for C5 at concrete inputs: a 2-element list is untouched, and a
301-element list is downsampled to exactly 300 samples. -/
theorem C5_downsample_witness :
    downsample [(5 : Nat), 7] = [5, 7] ∧
      (downsample (List.range 301)).length = MAX_POINTS :=
  ⟨(C5_downsample Nat [5, 7]).1 (by decide),
   ((C5_downsample Nat (List.range 301)).2 (by decide)).2.1⟩

/-- C8.  In every successful bundle with a non-empty date-filtered dataset,
`last_update` is the maximum timestamp over the full filtered dataset —
taken from `df` before any per-sensor dropping, resampling or
downsampling. -/
theorem C8_last_update (df : Df) (sd ed : Option Nat)
    (h : dateFilter (sortRows df.rows) sd ed ≠ []) :
    ∃ m : Nat, (process_data (.ok df) sd ed).last_update = some m ∧
      m ∈ (dateFilter (sortRows df.rows) sd ed).map Row.ts ∧
      ∀ t ∈ (dateFilter (sortRows df.rows) sd ed).map Row.ts, t ≤ m := by
  obtain ⟨m, hm⟩ :
      ∃ m, ((dateFilter (sortRows df.rows) sd ed).map Row.ts).max? = some m := by
    cases hx : ((dateFilter (sortRows df.rows) sd ed).map Row.ts).max? with
    | none =>
        rw [List.max?_eq_none_iff, List.map_eq_nil_iff] at hx
        exact absurd hx h
    | some m => exact ⟨m, rfl⟩
  have hiff := List.max?_eq_some_iff'.mp hm
  exact ⟨m, by simp only [process_data, successBundle]; exact hm, hiff.1, hiff.2⟩

/-- Witness for C8: two rows with no date window; the bundle's `last_update`
is 540, the larger of the two timestamps. -/
theorem C8_last_update_witness :
    ∃ m : Nat,
      (process_data (.ok ⟨[.pressure], [⟨540, some 2, none, none, none⟩,
          ⟨60, some 1, none, none, none⟩]⟩) none none).last_update = some m ∧
        m ∈ (dateFilter (sortRows [⟨540, some 2, none, none, none⟩,
          ⟨60, some 1, none, none, none⟩]) none none).map Row.ts ∧
        ∀ t ∈ (dateFilter (sortRows [⟨540, some 2, none, none, none⟩,
          ⟨60, some 1, none, none, none⟩]) none none).map Row.ts, t ≤ m :=
  C8_last_update ⟨[.pressure], [⟨540, some 2, none, none, none⟩,
    ⟨60, some 1, none, none, none⟩]⟩ none none (by decide)

/-- C9.  If loading succeeds but the date-filtered dataset is empty, the
result is still a success bundle: `data_available = true`, empty chart
data, `last_update = None` and no error entry. -/
theorem C9_empty_window (df : Df) (sd ed : Option Nat)
    (h : dateFilter (sortRows df.rows) sd ed = []) :
    (process_data (.ok df) sd ed).data_available = true ∧
      (process_data (.ok df) sd ed).chart_data = [] ∧
      (process_data (.ok df) sd ed).last_update = none ∧
      (process_data (.ok df) sd ed).error = none := by
  have hz : ∀ s, sensorOut ([] : List Row) s = (zeroStats, none) :=
    fun s => sensorOut_of_no_valid [] s rfl
  refine ⟨rfl, ?_, ?_, rfl⟩
  · simp only [process_data, successBundle, h]
    simp [hz]
  · simp only [process_data, successBundle, h]
    simp

/-- Witness for C9: a single row at `t = 100 s` with a date window a year
later; the bundle is a success bundle with no chart data. -/
theorem C9_empty_window_witness :
    (process_data (.ok ⟨[.pressure], [⟨100, some 1, none, none, none⟩]⟩)
        (some 31536000) (some 31622400)).data_available = true ∧
      (process_data (.ok ⟨[.pressure], [⟨100, some 1, none, none, none⟩]⟩)
        (some 31536000) (some 31622400)).chart_data = [] ∧
      (process_data (.ok ⟨[.pressure], [⟨100, some 1, none, none, none⟩]⟩)
        (some 31536000) (some 31622400)).last_update = none ∧
      (process_data (.ok ⟨[.pressure], [⟨100, some 1, none, none, none⟩]⟩)
        (some 31536000) (some 31622400)).error = none :=
  C9_empty_window ⟨[.pressure], [⟨100, some 1, none, none, none⟩]⟩
    (some 31536000) (some 31622400) (by decide)

theorem sensorOut_current_iff (rows : List Row) (s : Sensor) :
    (sensorOut rows s).1.current.isSome = (sensorOut rows s).2.isSome := by
  by_cases hr : resampledSeries rows s = []
  · rw [sensorOut_of_rs_empty rows s hr]
    simp [zeroStats]
  · rw [sensorOut_of_rs_ne rows s hr]
    have hds : downsample (resampledSeries rows s) ≠ [] := downsample_ne_nil _ hr
    have hvals : (downsample (resampledSeries rows s)).map Prod.snd ≠ [] := by
      simpa using hds
    simp [List.getLast?_isSome, hvals, hds]

/-- C10.  In every successful bundle the chart keys are a subset of the
stats keys, and a sensor's stats entry carries a `'current'` key exactly
when the sensor has a chart series. -/
theorem C10_keys_current (df : Df) (sd ed : Option Nat) (s : Sensor) :
    ((getEntry (process_data (.ok df) sd ed).chart_data s).isSome →
        (getEntry (process_data (.ok df) sd ed).stats s).isSome) ∧
      (∀ st : Stats, getEntry (process_data (.ok df) sd ed).stats s = some st →
        (st.current.isSome ↔ (getEntry (process_data (.ok df) sd ed).chart_data s).isSome)) ∧
      (∀ s' ∈ (process_data (.ok df) sd ed).chart_data.map Prod.fst,
        s' ∈ (process_data (.ok df) sd ed).stats.map Prod.fst) := by
  have hpd : process_data (.ok df) sd ed = successBundle df sd ed := rfl
  rw [hpd]
  refine ⟨?_, ?_, ?_⟩
  · rw [stats_lookup, chart_lookup]
    by_cases hc : s ∈ df.cols <;> simp [hc]
  · intro st hst
    rw [stats_lookup] at hst
    rw [chart_lookup]
    by_cases hc : s ∈ df.cols
    · rw [if_pos hc] at hst
      have hst' : (sensorOut (dateFilter (sortRows df.rows) sd ed) s).1 = st :=
        Option.some_injective _ hst
      rw [if_pos hc, ← hst', sensorOut_current_iff]
    · rw [if_neg hc] at hst
      exact absurd hst (by simp)
  · intro s' hs'
    simp only [successBundle, List.map_map] at hs' ⊢
    obtain ⟨p, hp, rfl⟩ := List.mem_map.mp hs'
    obtain ⟨k, hk, hkp⟩ := List.mem_filterMap.mp hp
    obtain ⟨c, hc, rfl⟩ := Option.map_eq_some'.mp hkp
    exact List.mem_map.mpr ⟨k, hk, rfl⟩

unseal Rat.add Rat.mul Rat.sub Rat.inv in
/-- C6.  Resampling with linear interpolation never extrapolates beyond the
observed range: a sensor whose series has a single valid sample produces
exactly one bucket (the sample's own minute) and no interpolated buckets
beyond it; and the series (t=0 s, 1.0), (t=120 s, 3.0) resamples to exactly
the three buckets :00, :01, :02 with values 1.0, 2.0 (interpolated), 3.0. -/
theorem C6_resample_no_extrapolation :
    (∀ (rows : List Row) (s : Sensor) (t : Nat) (v : ℚ),
        validPairs rows s = [(t, v)] →
          resampledSeries rows s = [(t / 60, v)]) ∧
      resampledSeries exTwoRows .pressure = [(0, 1), (1, 2), (2, 3)] := by
  constructor
  · intro rows s t v h
    unfold resampledSeries
    rw [h]
    simp [sortPairs, insertPair, List.getLastD, interpGrid, interpAfter,
      List.range_succ]
  · decide

unseal Rat.add Rat.mul Rat.sub Rat.inv in
/-- Witness for C6: a single pressure sample at `t = 90 s`, value 5,
resamples to the single bucket of minute 1 with value 5. -/
theorem C6_resample_witness :
    resampledSeries exOneRow .pressure = [(1, 5)] :=
  (C6_resample_no_extrapolation.1 exOneRow .pressure 90 5 (by decide))

/-! ## Helper lemmas: per-sensor independence -/

theorem validPairs_eq_of_proj (rows₁ rows₂ : List Row) (s : Sensor)
    (h : rows₁.map (projTs s) = rows₂.map (projTs s)) :
    validPairs rows₁ s = validPairs rows₂ s := by
  have h1 : validPairs rows₁ s =
      (rows₁.map (projTs s)).filterMap (fun q => q.2.map (fun v => (q.1, v))) := by
    rw [List.filterMap_map]
    rfl
  have h2 : validPairs rows₂ s =
      (rows₂.map (projTs s)).filterMap (fun q => q.2.map (fun v => (q.1, v))) := by
    rw [List.filterMap_map]
    rfl
  rw [h1, h2, h]

theorem sensorOut_congr (rows₁ rows₂ : List Row) (s : Sensor)
    (h : validPairs rows₁ s = validPairs rows₂ s) :
    sensorOut rows₁ s = sensorOut rows₂ s := by
  have hr : resampledSeries rows₁ s = resampledSeries rows₂ s := by
    unfold resampledSeries
    rw [h]
  unfold sensorOut
  rw [h, hr]

theorem map_projTs_insertRow (s : Sensor) (r : Row) (l : List Row) :
    (insertRow r l).map (projTs s) = insertPair (projTs s r) (l.map (projTs s)) := by
  induction l with
  | nil => rfl
  | cons x xs ih =>
      simp only [insertRow, List.map_cons, insertPair, projTs]
      by_cases h : x.ts < r.ts
      · simp only [if_pos h, List.map_cons, ih, projTs]
      · simp only [if_neg h, List.map_cons, projTs]

theorem map_projTs_sortRows (s : Sensor) (l : List Row) :
    (sortRows l).map (projTs s) = sortPairs (l.map (projTs s)) := by
  induction l with
  | nil => rfl
  | cons r rs ih =>
      simp only [sortRows, List.map_cons, sortPairs, map_projTs_insertRow, ih]

theorem map_projTs_dateFilter (s : Sensor) (rows : List Row) (sd ed : Option Nat) :
    (dateFilter rows sd ed).map (projTs s) =
      (match sd, ed with
        | some a, some b =>
            (rows.map (projTs s)).filter (fun q => a ≤ q.1 && q.1 ≤ b + 86400 - 1)
        | _, _ => rows.map (projTs s)) := by
  match sd, ed with
  | some a, some b =>
      show (rows.filter (fun r => a ≤ r.ts && r.ts ≤ b + 86400 - 1)).map (projTs s) =
        (rows.map (projTs s)).filter (fun q => a ≤ q.1 && q.1 ≤ b + 86400 - 1)
      rw [List.filter_map]
      rfl
  | none, _ => rfl
  | some _, none => rfl

/-- C7.  A sensor with zero valid samples gets exactly the zeroed statistics
`{min:0, max:0, mean:0}` with no `'current'` key and no chart series — both
at the per-sensor level and in the assembled bundle — and every sensor's
stats and chart entries depend only on the timestamp column and that
sensor's own column, so the other sensors are unaffected. -/
theorem C7_sensor_empty :
    (∀ (rows : List Row) (s : Sensor), validPairs rows s = [] →
        sensorOut rows s = (zeroStats, none)) ∧
      (∀ (df : Df) (sd ed : Option Nat) (s : Sensor), s ∈ df.cols →
        validPairs (dateFilter (sortRows df.rows) sd ed) s = [] →
        getEntry (process_data (.ok df) sd ed).stats s = some zeroStats ∧
          getEntry (process_data (.ok df) sd ed).chart_data s = none) ∧
      (∀ (df₁ df₂ : Df) (sd ed : Option Nat) (s : Sensor), df₁.cols = df₂.cols →
        df₁.rows.map (projTs s) = df₂.rows.map (projTs s) →
        getEntry (process_data (.ok df₁) sd ed).stats s =
            getEntry (process_data (.ok df₂) sd ed).stats s ∧
          getEntry (process_data (.ok df₁) sd ed).chart_data s =
            getEntry (process_data (.ok df₂) sd ed).chart_data s) := by
  have hpd : ∀ df sd ed, process_data (.ok df) sd ed = successBundle df sd ed :=
    fun _ _ _ => rfl
  refine ⟨sensorOut_of_no_valid, ?_, ?_⟩
  · intro df sd ed s hcol hvalid
    rw [hpd, stats_lookup, chart_lookup, if_pos hcol, if_pos hcol,
      sensorOut_of_no_valid _ _ hvalid]
    exact ⟨rfl, rfl⟩
  · intro df₁ df₂ sd ed s hcols hproj
    have hfilter : (dateFilter (sortRows df₁.rows) sd ed).map (projTs s) =
        (dateFilter (sortRows df₂.rows) sd ed).map (projTs s) := by
      rw [map_projTs_dateFilter, map_projTs_dateFilter,
        map_projTs_sortRows, map_projTs_sortRows, hproj]
    have hout : sensorOut (dateFilter (sortRows df₁.rows) sd ed) s =
        sensorOut (dateFilter (sortRows df₂.rows) sd ed) s :=
      sensorOut_congr _ _ s (validPairs_eq_of_proj _ _ s hfilter)
    rw [hpd, hpd, stats_lookup, stats_lookup, chart_lookup, chart_lookup,
      hcols, hout]
    exact ⟨rfl, rfl⟩

unseal Rat.add Rat.mul Rat.sub Rat.inv in
/-- Witness for C7: the humidity column of `exTwoRows` has no valid sample,
so humidity gets zeroed stats and no chart entry while pressure keeps its
full series. -/
theorem C7_sensor_empty_witness :
    sensorOut exTwoRows .humidity = (zeroStats, none) ∧
      (getEntry (process_data (.ok ⟨[.pressure, .humidity], exTwoRows⟩)
          none none).stats .humidity = some zeroStats ∧
        getEntry (process_data (.ok ⟨[.pressure, .humidity], exTwoRows⟩)
          none none).chart_data .humidity = none) :=
  ⟨C7_sensor_empty.1 exTwoRows .humidity (by decide),
   C7_sensor_empty.2.1 ⟨[.pressure, .humidity], exTwoRows⟩ none none .humidity
     (by decide) (by decide)⟩

/-- C1 (amended).  Whenever a sensor has a chart series, its statistics
{min, max, mean, current} are computed over exactly the values of that
(already downsampled) display series — the series handed to the renderer —
not over the full filtered/resampled series. -/
theorem C1_stats_over_downsampled (df : Df) (sd ed : Option Nat) (s : Sensor)
    (ser : Series)
    (h : getEntry (process_data (.ok df) sd ed).chart_data s = some ser) :
    getEntry (process_data (.ok df) sd ed).stats s =
        some ⟨valsMin ser.values, valsMax ser.values, valsMean ser.values,
          ser.values.getLast?⟩ ∧
      ser.values =
        (downsample (resampledSeries (dateFilter (sortRows df.rows) sd ed) s)).map
          Prod.snd := by
  have hpd : process_data (.ok df) sd ed = successBundle df sd ed := rfl
  rw [hpd] at h ⊢
  rw [chart_lookup] at h
  by_cases hcol : s ∈ df.cols
  · rw [if_pos hcol] at h
    by_cases hr : resampledSeries (dateFilter (sortRows df.rows) sd ed) s = []
    · rw [sensorOut_of_rs_empty _ _ hr] at h
      exact absurd h (by simp)
    · rw [sensorOut_of_rs_ne _ _ hr] at h
      have hser := (Option.some_injective _ h).symm
      rw [stats_lookup, if_pos hcol, sensorOut_of_rs_ne _ _ hr, hser]
      exact ⟨rfl, rfl⟩
  · rw [if_neg hcol] at h
    exact absurd h (by simp)

unseal Rat.add Rat.mul Rat.sub Rat.inv in
/-- Witness for C1 (amended): for the two-sample pressure series the chart
series is [1, 2, 3], and the statistics are computed over those values. -/
theorem C1_stats_over_downsampled_witness :
    getEntry (process_data (.ok ⟨[.pressure], exTwoRows⟩) none none).stats .pressure =
        some ⟨valsMin [1, 2, 3], valsMax [1, 2, 3], valsMean [1, 2, 3],
          ([1, 2, 3] : List ℚ).getLast?⟩ ∧
      ([1, 2, 3] : List ℚ) =
        (downsample (resampledSeries (dateFilter (sortRows exTwoRows) none none)
          .pressure)).map Prod.snd :=
  C1_stats_over_downsampled ⟨[.pressure], exTwoRows⟩ none none .pressure
    ⟨[0, 60, 120], [1, 2, 3]⟩ (by decide)

set_option maxRecDepth 4000 in
unseal Rat.add Rat.mul Rat.sub Rat.inv in
theorem resampled_exPeakRows : resampledSeries exPeakRows .pressure = exPeakFull := by
  decide

theorem filterMap_eq_map_of_some {α β : Type} (l : List α) (f : α → Option β)
    (g : α → β) (h : ∀ a ∈ l, f a = some (g a)) : l.filterMap f = l.map g := by
  induction l with
  | nil => rfl
  | cons a as ih =>
      simp [List.filterMap_cons, h a (by simp),
        ih (fun b hb => h b (by simp [hb]))]

set_option maxRecDepth 2000 in
theorem exPeakFull_length : exPeakFull.length = 301 := by
  decide

theorem exPeakFull_get (i : Nat) (hi : i < 301) :
    exPeakFull.get? i = some (i, exPeakVal i) := by
  rw [List.get?_eq_getElem?,
    show exPeakFull = (List.range 301).map (fun i => (i, exPeakVal i)) from rfl,
    List.getElem?_map, List.getElem?_range hi]
  rfl

theorem downsample_exPeakFull : downsample exPeakFull = exPeakDs := by
  rw [downsample, if_pos (by rw [exPeakFull_length]; decide), exPeakFull_length]
  have hsome : ∀ i ∈ downsampleIndices 301, exPeakFull.get? i = some (i, exPeakVal i) :=
    fun i hi => exPeakFull_get i (downsampleIndices_lt 301 (by decide) i hi)
  rw [filterMap_eq_map_of_some _ _ _ hsome, downsampleIndices, List.map_map]
  rfl

set_option maxRecDepth 4000 in
unseal Rat.add Rat.mul Rat.sub Rat.inv in
theorem exPeakDs_snd : exPeakDs.map Prod.snd = List.replicate 300 1 := by
  decide

theorem foldl_max_replicate (n : Nat) (a : ℚ) :
    (List.replicate n a).foldl max a = a := by
  induction n with
  | zero => rfl
  | succ k ih => simp [List.replicate_succ, ih]

theorem valsMax_exPeakDs : valsMax (exPeakDs.map Prod.snd) = 1 := by
  rw [exPeakDs_snd, valsMax]
  have hh : (List.replicate 300 (1 : ℚ)).headD 0 = 1 := rfl
  rw [hh, foldl_max_replicate]

set_option maxRecDepth 4000 in
unseal Rat.add Rat.mul Rat.sub Rat.inv in
theorem hundred_mem_exPeakFull : (100 : ℚ) ∈ exPeakFull.map Prod.snd := by
  decide

set_option maxRecDepth 4000 in
unseal Rat.add Rat.mul Rat.sub Rat.inv in
/-- C1 counterexample.  For `exPeakRows` (maximum value 100 landing in
resampled bucket 299, which the 301-to-300 downsampling skips), the
reported `max` statistic is 1, although the full filtered/resampled series
contains the value 100 — so the statistics are not computed over the full
filtered/resampled series but over the downsampled display series. -/
theorem C1_counterexample :
    (getEntry (process_data (.ok ⟨[.pressure], exPeakRows⟩) none none).stats
        .pressure).map Stats.max = some 1 ∧
      (100 : ℚ) ∈ (resampledSeries (dateFilter (sortRows (Df.mk [.pressure]
        exPeakRows).rows) none none) .pressure).map Prod.snd ∧
      (1 : ℚ) < 100 := by
  have hrows : dateFilter (sortRows (Df.mk [.pressure] exPeakRows).rows) none none =
      exPeakRows := by
    show dateFilter (sortRows exPeakRows) none none = exPeakRows
    have hs : sortRows exPeakRows = exPeakRows := by decide
    rw [hs]
    rfl
  have hr : resampledSeries exPeakRows .pressure ≠ [] := by
    rw [resampled_exPeakRows]
    decide
  refine ⟨?_, ?_, by decide⟩
  · have hpd : process_data (.ok ⟨[.pressure], exPeakRows⟩) none none =
        successBundle ⟨[.pressure], exPeakRows⟩ none none := rfl
    rw [hpd, stats_lookup, if_pos (by decide : Sensor.pressure ∈ [Sensor.pressure]),
      hrows, sensorOut_of_rs_ne _ _ hr, resampled_exPeakRows, downsample_exPeakFull]
    simp only [Option.map_some']
    rw [valsMax_exPeakDs]
  · rw [hrows, resampled_exPeakRows]
    exact hundred_mem_exPeakFull

unseal Rat.add Rat.mul Rat.sub Rat.inv in
/-- Witness for C10: for the two-sample pressure dataframe, the pressure
chart entry exists, hence so does its stats entry, whose `'current'` key is
present exactly because the chart entry is. -/
theorem C10_keys_current_witness :
    (getEntry (process_data (.ok ⟨[.pressure], exTwoRows⟩) none none).stats
        .pressure).isSome ∧
      ((⟨1, 3, 2, some 3⟩ : Stats).current.isSome ↔
        (getEntry (process_data (.ok ⟨[.pressure], exTwoRows⟩) none none).chart_data
          .pressure).isSome) :=
  ⟨(C10_keys_current ⟨[.pressure], exTwoRows⟩ none none .pressure).1 (by decide),
   (C10_keys_current ⟨[.pressure], exTwoRows⟩ none none .pressure).2.1
     ⟨1, 3, 2, some 3⟩ (by decide)⟩

/-! ## Helper lemmas: any sorted permutation gives the same processed output

`df.sort_values('timestamp')` only guarantees *some* rearrangement of the
rows that is ascending in timestamp; with the default (unstable) quicksort
the tie order is unspecified.  These lemmas show the rest of the pipeline
cannot observe the difference. -/

theorem dateFilter_perm (rows₁ rows₂ : List Row) (sd ed : Option Nat)
    (h : rows₁.Perm rows₂) :
    (dateFilter rows₁ sd ed).Perm (dateFilter rows₂ sd ed) := by
  match sd, ed with
  | some a, some b => exact h.filter _
  | none, _ => exact h
  | some _, none => exact h

theorem dateFilter_pairwise (rows : List Row) (sd ed : Option Nat)
    (h : rows.Pairwise (fun a b => a.ts ≤ b.ts)) :
    (dateFilter rows sd ed).Pairwise (fun a b => a.ts ≤ b.ts) := by
  match sd, ed with
  | some a, some b => exact h.filter _
  | none, _ => exact h
  | some _, none => exact h

theorem map_ts_eq_of_sorted_perm (l₁ l₂ : List Row) (hperm : l₁.Perm l₂)
    (h₁ : l₁.Pairwise (fun a b => a.ts ≤ b.ts))
    (h₂ : l₂.Pairwise (fun a b => a.ts ≤ b.ts)) :
    l₁.map Row.ts = l₂.map Row.ts :=
  List.eq_of_perm_of_sorted (hperm.map Row.ts)
    (List.pairwise_map.mpr h₁) (List.pairwise_map.mpr h₂)

theorem validPairs_pairwise (rows : List Row) (s : Sensor)
    (h : rows.Pairwise (fun a b => a.ts ≤ b.ts)) :
    (validPairs rows s).Pairwise (fun p q => p.1 ≤ q.1) := by
  rw [validPairs, List.pairwise_filterMap]
  refine h.imp ?_
  intro a b hab p hp q hq
  cases hv : a.val s with
  | none => rw [hv] at hp; simp at hp
  | some v =>
      cases hw : b.val s with
      | none => rw [hw] at hq; simp at hq
      | some w =>
          rw [hv] at hp
          rw [hw] at hq
          simp only [Option.map_some', Option.mem_def, Option.some.injEq] at hp hq
          rw [← hp, ← hq]
          exact hab

theorem insertPair_of_le {β : Type} (p : Nat × β) (l : List (Nat × β))
    (h : ∀ q ∈ l, p.1 ≤ q.1) : insertPair p l = p :: l := by
  cases l with
  | nil => rfl
  | cons q qs =>
      have hq : ¬ q.1 < p.1 := Nat.not_lt.mpr (h q (by simp))
      simp [insertPair, hq]

theorem sortPairs_of_sorted {β : Type} (l : List (Nat × β))
    (h : l.Pairwise (fun p q => p.1 ≤ q.1)) : sortPairs l = l := by
  induction l with
  | nil => rfl
  | cons p ps ih =>
      obtain ⟨hp, hps⟩ := List.pairwise_cons.mp h
      show insertPair p (sortPairs ps) = p :: ps
      rw [ih hps, insertPair_of_le p ps hp]

theorem fst_getLastD {β : Type} (ps : List (Nat × β)) (d : Nat × β) :
    (ps.getLastD d).1 = (ps.map Prod.fst).getLastD d.1 := by
  induction ps generalizing d with
  | nil => rfl
  | cons q qs ih =>
      simp only [List.getLastD_cons, List.map_cons]
      exact ih q

theorem resampledSeries_eq_grid (rows : List Row) (s : Sensor) (p : Nat × ℚ)
    (ps : List (Nat × ℚ)) (h : sortPairs (validPairs rows s) = p :: ps) :
    resampledSeries rows s =
      (interpGrid ((List.range (((p :: ps).getLastD p).1 / 60 - p.1 / 60 + 1)).map
        (fun i =>
          let m := p.1 / 60 + i
          let vs := ((p :: ps).filter (fun q => q.1 / 60 == m)).map Prod.snd
          (m, if vs.length = 0 then none
              else some (vs.sum / (vs.length : ℚ)))))).filterMap
        (fun q => q.2.map (fun v => (q.1, v))) := by
  unfold resampledSeries
  rw [h]

theorem resampled_eq_of_sorted_perm (l₁ l₂ : List Row) (s : Sensor)
    (hperm : l₁.Perm l₂)
    (h₁ : l₁.Pairwise (fun a b => a.ts ≤ b.ts))
    (h₂ : l₂.Pairwise (fun a b => a.ts ≤ b.ts)) :
    resampledSeries l₁ s = resampledSeries l₂ s := by
  have hpp : (validPairs l₁ s).Perm (validPairs l₂ s) := hperm.filterMap _
  have hq₁ := validPairs_pairwise l₁ s h₁
  have hq₂ := validPairs_pairwise l₂ s h₂
  have hfst : (validPairs l₁ s).map Prod.fst = (validPairs l₂ s).map Prod.fst :=
    List.eq_of_perm_of_sorted (hpp.map Prod.fst)
      (List.pairwise_map.mpr hq₁) (List.pairwise_map.mpr hq₂)
  cases hv₁ : validPairs l₁ s with
  | nil =>
      have hv₂ : validPairs l₂ s = [] := by
        refine List.Perm.eq_nil ?_
        rw [← hv₁]
        exact hpp.symm
      rw [resampledSeries_of_no_valid l₁ s hv₁, resampledSeries_of_no_valid l₂ s hv₂]
  | cons p ps =>
      cases hv₂ : validPairs l₂ s with
      | nil =>
          exfalso
          have : validPairs l₁ s = [] := by
            refine List.Perm.eq_nil ?_
            rw [← hv₂]
            exact hpp
          rw [hv₁] at this
          exact List.cons_ne_nil _ _ this
      | cons q qs =>
          have hc : (p :: ps).Perm (q :: qs) := by
            rw [← hv₁, ← hv₂]
            exact hpp
          have hfst' : (p :: ps).map Prod.fst = (q :: qs).map Prod.fst := by
            rw [← hv₁, ← hv₂]
            exact hfst
          rw [List.map_cons, List.map_cons] at hfst'
          have hh : p.1 = q.1 := (List.cons.injEq _ _ _ _ ▸ hfst').1
          have htail : ps.map Prod.fst = qs.map Prod.fst :=
            (List.cons.injEq _ _ _ _ ▸ hfst').2
          have hlast : ((p :: ps).getLastD p).1 = ((q :: qs).getLastD q).1 := by
            rw [fst_getLastD, fst_getLastD, List.map_cons, List.map_cons,
              List.getLastD_cons, List.getLastD_cons, htail, hh]
          have hsort₁ : sortPairs (validPairs l₁ s) = p :: ps := by
            rw [hv₁]
            exact sortPairs_of_sorted _ (hv₁ ▸ hq₁)
          have hsort₂ : sortPairs (validPairs l₂ s) = q :: qs := by
            rw [hv₂]
            exact sortPairs_of_sorted _ (hv₂ ▸ hq₂)
          rw [resampledSeries_eq_grid l₁ s p ps hsort₁,
            resampledSeries_eq_grid l₂ s q qs hsort₂]
          congr 1
          rw [hh, hlast]
          congr 1
          refine List.map_congr_left ?_
          intro i hi
          have hvs : ((p :: ps).filter (fun r => r.1 / 60 == q.1 / 60 + i)).map
              Prod.snd |>.Perm
              (((q :: qs).filter (fun r => r.1 / 60 == q.1 / 60 + i)).map Prod.snd) :=
            (hc.filter _).map _
          dsimp only
          rw [hvs.length_eq, hvs.sum_eq]

theorem sensorOut_eq_of_sorted_perm (l₁ l₂ : List Row) (s : Sensor)
    (hperm : l₁.Perm l₂)
    (h₁ : l₁.Pairwise (fun a b => a.ts ≤ b.ts))
    (h₂ : l₂.Pairwise (fun a b => a.ts ≤ b.ts)) :
    sensorOut l₁ s = sensorOut l₂ s := by
  have hpp : (validPairs l₁ s).Perm (validPairs l₂ s) := hperm.filterMap _
  have hrs := resampled_eq_of_sorted_perm l₁ l₂ s hperm h₁ h₂
  have hie : (validPairs l₁ s).isEmpty = (validPairs l₂ s).isEmpty := by
    by_cases h : validPairs l₁ s = []
    · have h' : validPairs l₂ s = [] := by
        refine List.Perm.eq_nil ?_
        rw [← h]
        exact hpp.symm
      rw [h, h']
    · have h' : validPairs l₂ s ≠ [] := by
        intro hn
        refine h (List.Perm.eq_nil ?_)
        rw [← hn]
        exact hpp
      cases hl₁ : validPairs l₁ s with
      | nil => exact absurd hl₁ h
      | cons a as =>
          cases hl₂ : validPairs l₂ s with
          | nil => exact absurd hl₂ h'
          | cons b bs => rfl
  simp only [sensorOut]
  rw [hie, hrs]

/-- C2.  What the code guarantees at app.py line 38 is only that the rows
become *some* rearrangement sorted by ascending timestamp (the default
`sort_values` kind is the unstable quicksort, so the relative order of
equal-timestamp rows is unspecified — the stable tie order the spec claims
is a code bug, `kind='stable'` was not passed).  This theorem proves the
missing order is unobservable in the processed output: any two sorted
permutations of the same rows give, after date filtering, identical
per-sensor outputs (stats and chart series) and an identical timestamp
column (hence the same `last_update`). -/
theorem C2_tie_order_unobservable (rows₁ rows₂ : List Row) (sd ed : Option Nat)
    (hperm : rows₁.Perm rows₂)
    (hsorted₁ : rows₁.Pairwise (fun a b => a.ts ≤ b.ts))
    (hsorted₂ : rows₂.Pairwise (fun a b => a.ts ≤ b.ts)) :
    (∀ s : Sensor, sensorOut (dateFilter rows₁ sd ed) s =
        sensorOut (dateFilter rows₂ sd ed) s) ∧
      (dateFilter rows₁ sd ed).map Row.ts = (dateFilter rows₂ sd ed).map Row.ts := by
  have hp := dateFilter_perm rows₁ rows₂ sd ed hperm
  have hs₁ := dateFilter_pairwise rows₁ sd ed hsorted₁
  have hs₂ := dateFilter_pairwise rows₂ sd ed hsorted₂
  exact ⟨fun s => sensorOut_eq_of_sorted_perm _ _ s hp hs₁ hs₂,
    map_ts_eq_of_sorted_perm _ _ hp hs₁ hs₂⟩

unseal Rat.add Rat.mul Rat.sub Rat.inv in
/-- Witness for C2: two orderings of the same two rows stamped `t = 60 s`
(pressure 1 then 2, versus 2 then 1 — the two outcomes an unstable sort may
produce) yield identical per-sensor outputs and timestamp columns. -/
theorem C2_tie_order_unobservable_witness :
    (∀ s : Sensor,
        sensorOut (dateFilter [(⟨60, some 1, none, none, none⟩ : Row),
            ⟨60, some 2, none, none, none⟩] none none) s =
          sensorOut (dateFilter [(⟨60, some 2, none, none, none⟩ : Row),
            ⟨60, some 1, none, none, none⟩] none none) s) ∧
      (dateFilter [(⟨60, some 1, none, none, none⟩ : Row),
          ⟨60, some 2, none, none, none⟩] none none).map Row.ts =
        (dateFilter [(⟨60, some 2, none, none, none⟩ : Row),
          ⟨60, some 1, none, none, none⟩] none none).map Row.ts :=
  C2_tie_order_unobservable
    [⟨60, some 1, none, none, none⟩, ⟨60, some 2, none, none, none⟩]
    [⟨60, some 2, none, none, none⟩, ⟨60, some 1, none, none, none⟩]
    none none (by decide) (by decide) (by decide)
